import Mathlib

/-
  Verification of the visibility state machine and encapsulated-rendering
  contract of the native-components repository (a confirmation modal, a hover
  tooltip and a link-confirmation behavior implemented as web components).

  The embedding translates the final revisions of the two widget classes
  (src/src/components/modal.ts and src/src/components/tooltip.ts, the
  revisions the claims cite by line number) into pure state-transformer
  functions.  DOM facts that the code relies on are modelled explicitly and
  documented at their definitions: function-object identity for
  addEventListener/removeEventListener, strict equality and truthiness of
  JavaScript values, node allocation by document.createElement, the
  NotFoundError raised by removeChild on a non-child, the default EventInit
  of the Event constructor, and the capture, target and bubble phases of
  event dispatch.
-/

/-- A JavaScript runtime value as far as the embedded code needs it:
attribute callback values are DOMString or null, and the modal compares one
against its boolean field. -/
inductive JSValue where
  | str (s : String)
  | boolean (b : Bool)
  | null
  deriving DecidableEq

/-- JavaScript strict equality on the embedded values: operands of different
runtime types are never strictly equal; strings compare by value, booleans by
value, and null only equals null. -/
def jsStrictEq : JSValue → JSValue → Bool
  | .str a, .str b => a == b
  | .boolean a, .boolean b => a == b
  | .null, .null => true
  | _, _ => false

/-- JavaScript truthiness of the embedded values: the empty string and null
are falsy, every other string is truthy, a boolean is itself. -/
def jsTruthy : JSValue → Bool
  | .str s => !(s == "")
  | .boolean b => b
  | .null => false

/-- An attribute value delivered to attributeChangedCallback is a DOMString
or null; this injects it into the runtime-value type. -/
def attrToJS : Option String → JSValue
  | some s => .str s
  | none => .null

/-- A JavaScript function object, identified up to reference equality as
addEventListener/removeEventListener compare callbacks: a class method is one
stable object per class, while every evaluation of method.bind(this) (or of a
field initializer holding an arrow function) allocates a fresh object,
modelled by a stamp drawn from a per-instance counter. -/
inductive FunObj where
  | method (name : String)
  | bound (name : String) (stamp : Nat)
  deriving DecidableEq

/-- A registered listener: the event type paired with the callback object. -/
abbrev Listener := String × FunObj

/-- addEventListener: appends the (type, callback) pair unless an identical
pair is already registered (the DOM deduplicates identical registrations). -/
def addListener (ls : List Listener) (l : Listener) : List Listener :=
  if ls.contains l then ls else ls ++ [l]

/-- removeEventListener: removes the first registered listener whose type and
callback are both identical to the argument; removes nothing when no
registered pair matches. -/
def removeListener (ls : List Listener) (l : Listener) : List Listener :=
  ls.erase l

/-- The observable fields of a dispatched DOM event: its type, the three
EventInit flags, and an optional payload (a plain Event carries none). -/
structure Event where
  eventType : String
  bubbles : Bool
  cancelable : Bool
  composed : Bool
  detail : Option String
  deriving DecidableEq

/-- Models the expression `new Event(t)`: the EventInit defaults are
bubbles = false, cancelable = false, composed = false, and a plain Event has
no payload. -/
def mkEvent (t : String) : Event :=
  { eventType := t, bubbles := false, cancelable := false, composed := false
  , detail := none }

/-- A listener registration on a host-document element: the event type it
listens for and the capture flag passed as addEventListener's third
argument. -/
structure HostListener where
  eventType : String
  capture : Bool
  deriving DecidableEq

/-- A host-document element as event dispatch sees it: its name and the
listeners registered on it. -/
structure HostNode where
  name : String
  listeners : List HostListener
  deriving DecidableEq

/-- Modelled from the DOM event dispatch semantics (external to the
repository), capture phase: the ancestors of the target are visited
root-first, and each one's matching listeners registered with capture = true
are invoked — regardless of whether the event bubbles.  The ancestor list is
ordered nearest-first, as a parent chain. -/
def captureInvoked (e : Event) : List HostNode → List (String × HostListener)
  | [] => []
  | n :: rest =>
    captureInvoked e rest ++
      (n.listeners.filter (fun l => l.eventType == e.eventType && l.capture)).map
        (fun l => (n.name, l))

/-- Modelled from the DOM event dispatch semantics, target phase: every
matching listener on the target itself is invoked, whichever its capture
flag. -/
def targetInvoked (e : Event) (target : HostNode) : List (String × HostListener) :=
  (target.listeners.filter (fun l => l.eventType == e.eventType)).map
    (fun l => (target.name, l))

/-- Modelled from the DOM event dispatch semantics, bubble phase: the
ancestors are visited nearest-first and each one's matching listeners
registered with capture = false are invoked; the whole phase runs only when
the event bubbles. -/
def bubbleInvoked (e : Event) : List HostNode → List (String × HostListener)
  | [] => []
  | n :: rest =>
    (n.listeners.filter (fun l => l.eventType == e.eventType && !l.capture)).map
      (fun l => (n.name, l)) ++ bubbleInvoked e rest

/-- Modelled from the DOM event dispatch semantics: dispatching an event on a
target below an ancestor chain invokes, in order, the capture phase on the
ancestors, the target's own matching listeners, and — only when the event
bubbles — the bubble phase on the ancestors. -/
def dispatchInvoked (e : Event) (target : HostNode)
    (ancestors : List HostNode) : List (String × HostListener) :=
  captureInvoked e ancestors ++ targetInvoked e target ++
    (if e.bubbles then bubbleInvoked e ancestors else [])

/-- The modal host element carrying a bubble-phase "confirm" listener of its
own. -/
def modalHostNode : HostNode :=
  { name := "wc-modal"
  , listeners := [{ eventType := "confirm", capture := false }] }

/-- An ancestor of the modal (the document) carrying a capture-phase
"confirm" listener. -/
def documentHostNode : HostNode :=
  { name := "document"
  , listeners := [{ eventType := "confirm", capture := true }] }

/-- The inline-style properties the modal handlers write.  The values are the
effective ones: the shadow stylesheet built in the constructor initializes
opacity to "0" and pointer-events to "none" on both the backdrop and the
panel, and every later inline write overrides that with the value written. -/
structure Style where
  opacity : String
  pointerEvents : String
  deriving DecidableEq

/-- The hidden presentation (stylesheet initial value, also rewritten by
hideModalHandler). -/
def hiddenStyle : Style := { opacity := "0", pointerEvents := "none" }

/-- The visible presentation written by showModalHandler. -/
def visibleStyle : Style := { opacity := "1", pointerEvents := "all" }

/-- One observable action performed by a modal handler, in program order:
an assignment to the isOpen field, an inline style write on a chrome element,
or a dispatched event. -/
inductive MAct where
  | setOpen (value : Bool)
  | setStyle (target : String) (prop : String) (value : String)
  | dispatchEv (e : Event)
  deriving DecidableEq

/-- The events dispatched within a list of actions, in order. -/
def dispatches : List MAct → List Event
  | [] => []
  | .dispatchEv e :: rest => e :: dispatches rest
  | _ :: rest => dispatches rest

namespace Modal

/-- The state of one Modal instance (final revision of modal.ts).  The
constructor attaches a shadow root and builds the static chrome, so the
backdrop and panel elements always exist and carry the two styles; the four
element reference fields start null (modelled as resolved flags) until
connectedCallback resolves them; listener lists live on the two buttons;
bindCounter allocates fresh bound-function objects; slotContent is the
host-projected content, which the class never touches. -/
structure State where
  shadowRootPresent : Bool
  backdropResolved : Bool
  modalResolved : Bool
  cancelResolved : Bool
  confirmResolved : Bool
  isOpen : Bool
  backdropStyle : Style
  modalStyle : Style
  cancelListeners : List Listener
  confirmListeners : List Listener
  bindCounter : Nat
  slotContent : List String
  deriving DecidableEq

/-- The constructor: fields start null/false, the shadow root is attached and
the static markup built, leaving both chrome elements at their stylesheet
presentation. -/
def mkModal (slot : List String) : State :=
  { shadowRootPresent := true
  , backdropResolved := false, modalResolved := false
  , cancelResolved := false, confirmResolved := false
  , isOpen := false
  , backdropStyle := hiddenStyle, modalStyle := hiddenStyle
  , cancelListeners := [], confirmListeners := []
  , bindCounter := 0
  , slotContent := slot }

/-- showModalHandler: when both element references are resolved and the modal
is not already open, set isOpen and write the visible styles on backdrop and
panel; otherwise do nothing. -/
def showModalHandler (s : State) : State × List MAct :=
  if s.backdropResolved && s.modalResolved && !s.isOpen then
    ({ s with isOpen := true
            , backdropStyle := visibleStyle, modalStyle := visibleStyle },
     [MAct.setOpen true,
      MAct.setStyle "backdrop" "opacity" "1",
      MAct.setStyle "backdrop" "pointerEvents" "all",
      MAct.setStyle "modal" "opacity" "1",
      MAct.setStyle "modal" "pointerEvents" "all"])
  else (s, [])

/-- hideModalHandler: when both element references are resolved and the modal
is open, clear isOpen and write the hidden styles; otherwise do nothing. -/
def hideModalHandler (s : State) : State × List MAct :=
  if s.backdropResolved && s.modalResolved && s.isOpen then
    ({ s with isOpen := false
            , backdropStyle := hiddenStyle, modalStyle := hiddenStyle },
     [MAct.setOpen false,
      MAct.setStyle "backdrop" "opacity" "0",
      MAct.setStyle "backdrop" "pointerEvents" "none",
      MAct.setStyle "modal" "opacity" "0",
      MAct.setStyle "modal" "pointerEvents" "none"])
  else (s, [])

/-- cancelClickHandler: hide the modal, then dispatch `new Event("cancel")`
on the host element. -/
def cancelClickHandler (s : State) : State × List MAct :=
  let r := hideModalHandler s
  (r.1, r.2 ++ [MAct.dispatchEv (mkEvent "cancel")])

/-- confirmClickHandler: hide the modal, then dispatch `new Event("confirm")`
on the host element. -/
def confirmClickHandler (s : State) : State × List MAct :=
  let r := hideModalHandler s
  (r.1, r.2 ++ [MAct.dispatchEv (mkEvent "confirm")])

/-- connectedCallback: if the shadow root exists, resolve the four element
references (the chrome was built in the constructor, so the queries succeed);
then register a click listener on each button, each time evaluating
`.bind(this)`, which allocates a fresh function object. -/
def connectedCallback (s : State) : State :=
  let s1 :=
    if s.shadowRootPresent then
      { s with backdropResolved := true, modalResolved := true
             , cancelResolved := true, confirmResolved := true }
    else s
  let s2 :=
    if s1.cancelResolved then
      let f := FunObj.bound "cancelClickHandler" s1.bindCounter
      { s1 with cancelListeners := addListener s1.cancelListeners ("click", f)
              , bindCounter := s1.bindCounter + 1 }
    else s1
  if s2.confirmResolved then
    let f := FunObj.bound "confirmClickHandler" s2.bindCounter
    { s2 with confirmListeners := addListener s2.confirmListeners ("click", f)
            , bindCounter := s2.bindCounter + 1 }
  else s2

/-- disconnectedCallback: for each resolved button, call removeEventListener
passing the unbound class method object (`this.cancelClickHandler`,
`this.confirmClickHandler`), not the bound object registered at attach
time. -/
def disconnectedCallback (s : State) : State :=
  let s1 :=
    if s.cancelResolved then
      let f := FunObj.method "cancelClickHandler"
      { s with cancelListeners := removeListener s.cancelListeners ("click", f) }
    else s
  if s1.confirmResolved then
    let f := FunObj.method "confirmClickHandler"
    { s1 with confirmListeners := removeListener s1.confirmListeners ("click", f) }
  else s1

/-- attributeChangedCallback: for the observed "open" attribute, return early
when the new value is strictly equal to the boolean isOpen field, else call
showModalHandler when the new value is truthy and hideModalHandler
otherwise.  Other attribute names fall through to the default case. -/
def attributeChangedCallback (s : State) (name : String)
    (newValue : Option String) : State × List MAct :=
  match name with
  | "open" =>
    if jsStrictEq (attrToJS newValue) (.boolean s.isOpen) then (s, [])
    else if jsTruthy (attrToJS newValue) then showModalHandler s
    else hideModalHandler s
  | _ => (s, [])

end Modal

namespace Tooltip

/-- A content node created by document.createElement("div") and appended to
the tooltip's shadow root: identified by an allocation id (node identity) and
carrying its textContent. -/
structure DivNode where
  id : Nat
  textContent : String
  deriving DecidableEq

/-- The state of one Tooltip instance (final revision of tooltip.ts, the one
with the observed "text" attribute).  The constructor attaches a shadow root
and builds the static markup (slot plus icon span); text is a JavaScript
string field that attributeChangedCallback may set to null, hence an Option;
iconResolved models the iconElement reference; containerElement is the
reference to the last created content div; shadowChildren are the content
divs currently appended to the shadow root (the static markup aside);
nodeCounter allocates node identities, bindCounter bound-function objects;
attrText is the host-set "text" attribute. -/
structure State where
  shadowRootPresent : Bool
  text : Option String
  iconResolved : Bool
  containerElement : Option DivNode
  shadowChildren : List DivNode
  nodeCounter : Nat
  iconListeners : List Listener
  bindCounter : Nat
  attrText : Option String
  deriving DecidableEq

/-- The constructor: text starts as the empty string, both references null,
the shadow root attached with only static markup. -/
def mkTooltip (attrText : Option String) : State :=
  { shadowRootPresent := true
  , text := some ""
  , iconResolved := false
  , containerElement := none
  , shadowChildren := []
  , nodeCounter := 0
  , iconListeners := []
  , bindCounter := 0
  , attrText := attrText }

/-- Assigning a JavaScript string-or-null to textContent: the DOM treats a
null assignment as the empty string. -/
def textContentOf : Option String → String
  | some s => s
  | none => ""

/-- showTooltipHandler: unconditionally create a fresh div carrying the
current text (document.createElement allocates a new node, modelled by
nodeCounter), store it in containerElement, and, the shadow root being
present, append it to the shadow root.  There is no guard on an existing
container or on visibility. -/
def showTooltipHandler (s : State) : State :=
  let container : DivNode := { id := s.nodeCounter
                             , textContent := textContentOf s.text }
  let s1 := { s with containerElement := some container
                   , nodeCounter := s.nodeCounter + 1 }
  if s1.shadowRootPresent then
    { s1 with shadowChildren := s1.shadowChildren ++ [container] }
  else s1

/-- hideTooltipHandler: when containerElement is non-null and the shadow root
present, call shadowRoot.removeChild on the container.  The DOM's removeChild
throws NotFoundError when the argument is not currently a child; the
containerElement field is never cleared. -/
def hideTooltipHandler (s : State) : Except String State :=
  match s.containerElement with
  | some container =>
    if s.shadowRootPresent then
      if s.shadowChildren.contains container then
        .ok { s with shadowChildren := s.shadowChildren.erase container }
      else .error "NotFoundError"
    else .ok s
  | none => .ok s

/-- connectedCallback: read the "text" attribute into the text field when
present; if the shadow root exists, resolve the icon reference (the static
markup contains the span, so the query succeeds) and register the mouseenter
and mouseleave listeners, each created by a fresh `.bind(this)`. -/
def connectedCallback (s : State) : State :=
  let s1 :=
    match s.attrText with
    | some v => { s with text := some v }
    | none => s
  if s1.shadowRootPresent then
    let s2 := { s1 with iconResolved := true }
    if s2.iconResolved then
      let f1 := FunObj.bound "showTooltipHandler" s2.bindCounter
      let f2 := FunObj.bound "hideTooltipHandler" (s2.bindCounter + 1)
      let ls := addListener (addListener s2.iconListeners ("mouseenter", f1))
        ("mouseleave", f2)
      { s2 with iconListeners := ls, bindCounter := s2.bindCounter + 2 }
    else s2
  else s1

/-- disconnectedCallback: when the icon reference is resolved, call
removeEventListener passing `.bind(this)` again — each call allocates a fresh
function object distinct from the one registered at attach time. -/
def disconnectedCallback (s : State) : State :=
  if s.iconResolved then
    let f1 := FunObj.bound "showTooltipHandler" s.bindCounter
    let f2 := FunObj.bound "hideTooltipHandler" (s.bindCounter + 1)
    let ls := removeListener (removeListener s.iconListeners ("mouseenter", f1))
      ("mouseleave", f2)
    { s with iconListeners := ls, bindCounter := s.bindCounter + 2 }
  else s

/-- attributeChangedCallback: return early when old and new values are
strictly equal; for the observed "text" attribute assign the new value (a
DOMString or null) to the text field; other names fall through. -/
def attributeChangedCallback (s : State) (name : String)
    (oldValue newValue : Option String) : State :=
  if jsStrictEq (attrToJS oldValue) (attrToJS newValue) then s
  else
    match name with
    | "text" => { s with text := newValue }
    | _ => s

end Tooltip

namespace CH

/-- The state of one ConfirmHyperlink instance: the clickHandler field is an
arrow function allocated once by the field initializer at construction (a
stable per-instance function object), and the listeners are registered on the
element itself. -/
structure State where
  clickHandlerFun : FunObj
  listeners : List Listener
  deriving DecidableEq

/-- The constructor: the field initializer allocates the instance's single
stable clickHandler function object. -/
def mkHyperlink : State :=
  { clickHandlerFun := FunObj.bound "ConfirmHyperlink.clickHandler" 0
  , listeners := [] }

/-- connectedCallback: register the stable clickHandler field for "click". -/
def connectedCallback (s : State) : State :=
  { s with listeners := addListener s.listeners ("click", s.clickHandlerFun) }

/-- disconnectedCallback: remove the same stable clickHandler field. -/
def disconnectedCallback (s : State) : State :=
  { s with listeners := removeListener s.listeners ("click", s.clickHandlerFun) }

end CH

/-- A Tooltip constructed with attribute text="Hello" and then attached, as
in the spec's tooltip scenario. -/
def tooltipHello : Tooltip.State :=
  Tooltip.connectedCallback (Tooltip.mkTooltip (some "Hello"))

/-- A Modal with empty projected content, attached, then shown: a visible
modal with resolved chrome. -/
def modalShown : Modal.State :=
  (Modal.showModalHandler (Modal.connectedCallback (Modal.mkModal []))).1

/-- C1: calling show() twice is NOT observably identical to calling it once
on the tooltip: showTooltipHandler has no visibility guard, so a second call
mounts a second content div (two ephemeral nodes mounted, state differing
from a single show), violating the claimed idempotence; the modal half of the
claim does hold (a second showModalHandler on the shown modal is a no-op with
an empty action trace). -/
theorem c1_tooltip_show_not_idempotent :
    (Tooltip.showTooltipHandler (Tooltip.showTooltipHandler tooltipHello)).shadowChildren.length = 2 ∧
    (Tooltip.showTooltipHandler tooltipHello).shadowChildren.length = 1 ∧
    Tooltip.showTooltipHandler (Tooltip.showTooltipHandler tooltipHello) ≠
      Tooltip.showTooltipHandler tooltipHello ∧
    Modal.showModalHandler modalShown = (modalShown, []) := by
  refine ⟨rfl, rfl, ?_, rfl⟩
  decide

/-- C2: after a connect/disconnect cycle the listener sets of the modal and
the tooltip are NOT empty: connectedCallback registers fresh `.bind(this)`
function objects, while disconnectedCallback passes the unbound methods
(modal) or fresh rebinds (tooltip), which match nothing, so every widget
listener stays registered; only ConfirmHyperlink, whose handler is a stable
arrow-function field, ends with an empty listener set. -/
theorem c2_detach_leaves_listeners_registered :
    (Modal.disconnectedCallback (Modal.connectedCallback (Modal.mkModal []))).cancelListeners =
      [("click", FunObj.bound "cancelClickHandler" 0)] ∧
    (Modal.disconnectedCallback (Modal.connectedCallback (Modal.mkModal []))).confirmListeners =
      [("click", FunObj.bound "confirmClickHandler" 1)] ∧
    (Tooltip.disconnectedCallback tooltipHello).iconListeners =
      [("mouseenter", FunObj.bound "showTooltipHandler" 0),
       ("mouseleave", FunObj.bound "hideTooltipHandler" 1)] ∧
    (CH.disconnectedCallback (CH.connectedCallback CH.mkHyperlink)).listeners = [] :=
  ⟨rfl, rfl, rfl, rfl⟩

/-- C3: an "open" attribute change whose truthiness equals the current isOpen
state leaves the modal state unchanged with no action performed (no style
write, no isOpen mutation); when the truthiness differs, the callback behaves
exactly as showModalHandler when the new value is truthy and as
hideModalHandler otherwise. -/
theorem c3_open_attribute_change_behavior (s : Modal.State) (v : Option String) :
    Modal.attributeChangedCallback s "open" v =
      if jsTruthy (attrToJS v) = s.isOpen then (s, [])
      else if jsTruthy (attrToJS v) then Modal.showModalHandler s
      else Modal.hideModalHandler s := by
  have h1 : Modal.attributeChangedCallback s "open" v =
      if jsStrictEq (attrToJS v) (JSValue.boolean s.isOpen) then (s, [])
      else if jsTruthy (attrToJS v) then Modal.showModalHandler s
      else Modal.hideModalHandler s := rfl
  have h2 : jsStrictEq (attrToJS v) (JSValue.boolean s.isOpen) = false := by
    cases v <;> rfl
  rw [h1, h2]
  cases hT : jsTruthy (attrToJS v) <;> cases hO : s.isOpen <;>
    simp [Modal.showModalHandler, Modal.hideModalHandler, hO]

/-- C4: on a visible modal with resolved chrome, the confirm-button handler
first performs the hide transition and then dispatches exactly one plain
"confirm" event as its final action (so a host listener runs against the
already-hidden state), with no "cancel" event; the cancel-button handler is
symmetric. -/
theorem c4_confirm_cancel_hide_then_emit (s : Modal.State)
    (hb : s.backdropResolved = true) (hm : s.modalResolved = true)
    (ho : s.isOpen = true) :
    (Modal.confirmClickHandler s =
       ((Modal.hideModalHandler s).1,
        (Modal.hideModalHandler s).2 ++ [MAct.dispatchEv (mkEvent "confirm")]) ∧
     (Modal.confirmClickHandler s).1.isOpen = false ∧
     (Modal.confirmClickHandler s).1.backdropStyle = hiddenStyle ∧
     (Modal.confirmClickHandler s).1.modalStyle = hiddenStyle ∧
     dispatches (Modal.confirmClickHandler s).2 = [mkEvent "confirm"] ∧
     mkEvent "cancel" ∉ dispatches (Modal.confirmClickHandler s).2 ∧
     (Modal.confirmClickHandler s).2.getLast? =
       some (MAct.dispatchEv (mkEvent "confirm"))) ∧
    (Modal.cancelClickHandler s =
       ((Modal.hideModalHandler s).1,
        (Modal.hideModalHandler s).2 ++ [MAct.dispatchEv (mkEvent "cancel")]) ∧
     (Modal.cancelClickHandler s).1.isOpen = false ∧
     (Modal.cancelClickHandler s).1.backdropStyle = hiddenStyle ∧
     (Modal.cancelClickHandler s).1.modalStyle = hiddenStyle ∧
     dispatches (Modal.cancelClickHandler s).2 = [mkEvent "cancel"] ∧
     mkEvent "confirm" ∉ dispatches (Modal.cancelClickHandler s).2 ∧
     (Modal.cancelClickHandler s).2.getLast? =
       some (MAct.dispatchEv (mkEvent "cancel"))) := by
  unfold Modal.confirmClickHandler Modal.cancelClickHandler Modal.hideModalHandler
  simp [hb, hm, ho, dispatches, mkEvent]

/-- C4 witness: the concrete shown modal satisfies the hypotheses and, after
the confirm click, is hidden. -/
theorem c4_confirm_cancel_hide_then_emit_witness :
    modalShown.isOpen = true ∧
    (Modal.confirmClickHandler modalShown).1.isOpen = false ∧
    dispatches (Modal.confirmClickHandler modalShown).2 = [mkEvent "confirm"] :=
  ⟨rfl, (c4_confirm_cancel_hide_then_emit modalShown rfl rfl rfl).1.2.1,
        (c4_confirm_cancel_hide_then_emit modalShown rfl rfl rfl).1.2.2.2.2.1⟩

/-- C5: hide() in the hidden state is NOT always a failure-free no-op for the
tooltip: after one show/hide cycle the instance is hidden (no mounted content
node), yet hideTooltipHandler still holds the stale containerElement
reference, so a further hide calls removeChild on a node that is not a child
and raises NotFoundError; the modal half of the claim holds (hide on the
hidden, attached modal is a no-op with no actions). -/
theorem c5_hide_when_hidden_raises :
    Except.map Tooltip.State.shadowChildren
      (Tooltip.hideTooltipHandler (Tooltip.showTooltipHandler tooltipHello)) = .ok [] ∧
    (Tooltip.hideTooltipHandler (Tooltip.showTooltipHandler tooltipHello)).bind
      Tooltip.hideTooltipHandler = .error "NotFoundError" ∧
    Modal.hideModalHandler (Modal.connectedCallback (Modal.mkModal [])) =
      (Modal.connectedCallback (Modal.mkModal []), []) :=
  ⟨rfl, rfl, rfl⟩

/-- C6: from a hidden state with resolved chrome (stylesheet presentation on
both chrome elements, no mounted tooltip content node), show() followed by
hide() restores the modal state exactly and leaves the tooltip shadow tree
with no mounted content node. -/
theorem c6_show_hide_round_trip (s : Modal.State) (t : Tooltip.State)
    (hb : s.backdropResolved = true) (hm : s.modalResolved = true)
    (ho : s.isOpen = false)
    (hbs : s.backdropStyle = hiddenStyle) (hms : s.modalStyle = hiddenStyle)
    (hsr : t.shadowRootPresent = true) (hch : t.shadowChildren = []) :
    (Modal.hideModalHandler (Modal.showModalHandler s).1).1 = s ∧
    Tooltip.hideTooltipHandler (Tooltip.showTooltipHandler t) =
      .ok { Tooltip.showTooltipHandler t with shadowChildren := [] } := by
  constructor
  · obtain ⟨sr, br, mr, cr, fr, io, bs, ms, cl, fl, bc, sc⟩ := s
    simp only at hb hm ho hbs hms
    subst hb hm ho hbs hms
    rfl
  · obtain ⟨tsr, tx, ir, ce, ch, nc, il, tbc, ta⟩ := t
    simp only at hsr hch
    subst hsr hch
    simp [Tooltip.showTooltipHandler, Tooltip.hideTooltipHandler]

/-- C6 witness: the attached hidden modal and the attached tooltip satisfy
the hypotheses and round-trip. -/
theorem c6_show_hide_round_trip_witness :
    (Modal.connectedCallback (Modal.mkModal [])).isOpen = false ∧
    tooltipHello.shadowChildren = [] ∧
    (Modal.hideModalHandler
      (Modal.showModalHandler (Modal.connectedCallback (Modal.mkModal []))).1).1 =
      Modal.connectedCallback (Modal.mkModal []) :=
  ⟨rfl, rfl,
   (c6_show_hide_round_trip (Modal.connectedCallback (Modal.mkModal []))
     tooltipHello rfl rfl rfl rfl rfl rfl rfl).1⟩

/-- C7: for the tooltip constructed with text="Hello" and attached, a hover
mounts one content node whose text is "Hello"; the following pointer-leave
unmounts it; changing the "text" attribute while not hovered mounts nothing
(the shadow tree keeps its empty set of content nodes), and the node mounted
on the next hover carries the new value "World". -/
theorem c7_tooltip_text_scenario :
    (Tooltip.showTooltipHandler tooltipHello).shadowChildren.map
      Tooltip.DivNode.textContent = ["Hello"] ∧
    Tooltip.hideTooltipHandler (Tooltip.showTooltipHandler tooltipHello) =
      .ok { Tooltip.showTooltipHandler tooltipHello with shadowChildren := [] } ∧
    (Tooltip.attributeChangedCallback tooltipHello "text"
      (some "Hello") (some "World")).shadowChildren = tooltipHello.shadowChildren ∧
    tooltipHello.shadowChildren = [] ∧
    (Tooltip.showTooltipHandler (Tooltip.attributeChangedCallback tooltipHello
      "text" (some "Hello") (some "World"))).shadowChildren.map
      Tooltip.DivNode.textContent = ["World"] :=
  ⟨rfl, rfl, rfl, rfl, rfl⟩

/-- C8 counterexample: the claim fails on the tooltip: a freshly constructed,
unattached tooltip has its icon chrome reference unresolved, yet
showTooltipHandler is not skipped — it changes the state by mounting a
content node into the shadow root. -/
theorem c8_claim_counterexample :
    (Tooltip.mkTooltip none).iconResolved = false ∧
    Tooltip.showTooltipHandler (Tooltip.mkTooltip none) ≠ Tooltip.mkTooltip none ∧
    (Tooltip.showTooltipHandler (Tooltip.mkTooltip none)).shadowChildren.length = 1 := by
  refine ⟨rfl, ?_, rfl⟩
  decide

/-- C8 amended: for the modal, show() and hide() with an unresolved backdrop
or panel reference are silently skipped (no error, no state change, no
action); the tooltip's hide() with a null container reference is likewise a
no-op, but the tooltip's show() is not guarded on its unresolved icon
reference (its shadow boundary exists from construction) and mounts a content
node even before attachment, without raising. -/
theorem c8_unresolved_refs_amended (s : Modal.State) (t : Tooltip.State)
    (h : s.backdropResolved = false ∨ s.modalResolved = false) :
    Modal.showModalHandler s = (s, []) ∧
    Modal.hideModalHandler s = (s, []) ∧
    (t.containerElement = none → Tooltip.hideTooltipHandler t = .ok t) := by
  refine ⟨?_, ?_, ?_⟩
  · unfold Modal.showModalHandler
    rcases h with h | h <;> simp [h]
  · unfold Modal.hideModalHandler
    rcases h with h | h <;> simp [h]
  · intro hc
    unfold Tooltip.hideTooltipHandler
    rw [hc]

/-- C8 amended witness: a freshly constructed modal has unresolved references
and its show() is skipped; a fresh tooltip's hide() is a no-op. -/
theorem c8_unresolved_refs_amended_witness :
    (Modal.mkModal []).backdropResolved = false ∧
    Modal.showModalHandler (Modal.mkModal []) = (Modal.mkModal [], []) ∧
    Tooltip.hideTooltipHandler (Tooltip.mkTooltip none) = .ok (Tooltip.mkTooltip none) :=
  ⟨rfl,
   (c8_unresolved_refs_amended (Modal.mkModal []) (Tooltip.mkTooltip none)
     (Or.inl rfl)).1,
   (c8_unresolved_refs_amended (Modal.mkModal []) (Tooltip.mkTooltip none)
     (Or.inl rfl)).2.2 rfl⟩

/-- C9: showModalHandler and hideModalHandler modify at most the isOpen flag
and the two chrome styles: the shadow root, the four element references, both
button listener lists, the bind counter and the host-projected content are
unchanged by either handler, on every state. -/
theorem c9_show_hide_frame (s : Modal.State) :
    ((Modal.showModalHandler s).1.shadowRootPresent = s.shadowRootPresent ∧
     (Modal.showModalHandler s).1.backdropResolved = s.backdropResolved ∧
     (Modal.showModalHandler s).1.modalResolved = s.modalResolved ∧
     (Modal.showModalHandler s).1.cancelResolved = s.cancelResolved ∧
     (Modal.showModalHandler s).1.confirmResolved = s.confirmResolved ∧
     (Modal.showModalHandler s).1.cancelListeners = s.cancelListeners ∧
     (Modal.showModalHandler s).1.confirmListeners = s.confirmListeners ∧
     (Modal.showModalHandler s).1.bindCounter = s.bindCounter ∧
     (Modal.showModalHandler s).1.slotContent = s.slotContent) ∧
    ((Modal.hideModalHandler s).1.shadowRootPresent = s.shadowRootPresent ∧
     (Modal.hideModalHandler s).1.backdropResolved = s.backdropResolved ∧
     (Modal.hideModalHandler s).1.modalResolved = s.modalResolved ∧
     (Modal.hideModalHandler s).1.cancelResolved = s.cancelResolved ∧
     (Modal.hideModalHandler s).1.confirmResolved = s.confirmResolved ∧
     (Modal.hideModalHandler s).1.cancelListeners = s.cancelListeners ∧
     (Modal.hideModalHandler s).1.confirmListeners = s.confirmListeners ∧
     (Modal.hideModalHandler s).1.bindCounter = s.bindCounter ∧
     (Modal.hideModalHandler s).1.slotContent = s.slotContent) := by
  unfold Modal.showModalHandler Modal.hideModalHandler
  constructor <;> split <;> simp

/-- Every pair invoked during the capture phase carries a listener registered
with the capture flag. -/
theorem captureInvoked_capture (e : Event) :
    ∀ (ancestors : List HostNode), ∀ p ∈ captureInvoked e ancestors,
      p.2.capture = true := by
  intro ancestors
  induction ancestors with
  | nil =>
    intro p hp
    simp [captureInvoked] at hp
  | cons n rest ih =>
    intro p hp
    simp only [captureInvoked, List.mem_append, List.mem_map, List.mem_filter,
      Bool.and_eq_true] at hp
    rcases hp with hp | ⟨l, ⟨_, _, hcap⟩, rfl⟩
    · exact ih p hp
    · exact hcap

/-- Every pair invoked during the target phase lies on the target element. -/
theorem targetInvoked_name (e : Event) (target : HostNode) :
    ∀ p ∈ targetInvoked e target, p.1 = target.name := by
  intro p hp
  simp only [targetInvoked, List.mem_map, List.mem_filter] at hp
  rcases hp with ⟨l, _, rfl⟩
  rfl

/-- C10 counterexample: the dispatched "confirm" signal is non-bubbling, yet
it is NOT observable only by listeners registered directly on the modal
element: the DOM capture phase still runs for non-bubbling events, so a
capture-phase "confirm" listener on an ancestor (here the document) is
invoked by the dispatch. -/
theorem c10_claim_counterexample :
    dispatches (Modal.confirmClickHandler modalShown).2 = [mkEvent "confirm"] ∧
    (mkEvent "confirm").bubbles = false ∧
    ("document", { eventType := "confirm", capture := true }) ∈
      dispatchInvoked (mkEvent "confirm") modalHostNode [documentHostNode] := by
  refine ⟨rfl, rfl, ?_⟩
  decide

/-- C10 amended: both dismissal signals are plain events with the default
EventInit — non-bubbling, non-cancelable, non-composed, no payload — so their
dispatch runs no bubble phase: for every ancestor chain the invoked listeners
are exactly the capture phase on the ancestors followed by the target's own
matching listeners, hence every invoked listener either lies on the modal
element itself or was registered for the capture phase; ancestor listeners
registered without capture never observe the signals. -/
theorem c10_signals_bubble_phase_suppressed (s : Modal.State)
    (target : HostNode) (ancestors : List HostNode) :
    dispatches (Modal.confirmClickHandler s).2 = [mkEvent "confirm"] ∧
    dispatches (Modal.cancelClickHandler s).2 = [mkEvent "cancel"] ∧
    (mkEvent "confirm").bubbles = false ∧
    (mkEvent "confirm").cancelable = false ∧
    (mkEvent "confirm").composed = false ∧
    (mkEvent "confirm").detail = none ∧
    (mkEvent "cancel").bubbles = false ∧
    (mkEvent "cancel").cancelable = false ∧
    (mkEvent "cancel").composed = false ∧
    (mkEvent "cancel").detail = none ∧
    dispatchInvoked (mkEvent "confirm") target ancestors =
      captureInvoked (mkEvent "confirm") ancestors ++
        targetInvoked (mkEvent "confirm") target ∧
    dispatchInvoked (mkEvent "cancel") target ancestors =
      captureInvoked (mkEvent "cancel") ancestors ++
        targetInvoked (mkEvent "cancel") target ∧
    (∀ p ∈ dispatchInvoked (mkEvent "confirm") target ancestors,
       p.1 = target.name ∨ p.2.capture = true) ∧
    (∀ p ∈ dispatchInvoked (mkEvent "cancel") target ancestors,
       p.1 = target.name ∨ p.2.capture = true) := by
  have hd : ∀ t : String, dispatchInvoked (mkEvent t) target ancestors =
      captureInvoked (mkEvent t) ancestors ++ targetInvoked (mkEvent t) target := by
    intro t
    simp [dispatchInvoked, mkEvent]
  have hmem : ∀ t : String, ∀ p ∈ dispatchInvoked (mkEvent t) target ancestors,
      p.1 = target.name ∨ p.2.capture = true := by
    intro t p hp
    rw [hd t] at hp
    rcases List.mem_append.mp hp with hp | hp
    · exact Or.inr (captureInvoked_capture (mkEvent t) ancestors p hp)
    · exact Or.inl (targetInvoked_name (mkEvent t) target p hp)
  have hconf : dispatches (Modal.confirmClickHandler s).2 = [mkEvent "confirm"] := by
    unfold Modal.confirmClickHandler Modal.hideModalHandler
    split <;> rfl
  have hcanc : dispatches (Modal.cancelClickHandler s).2 = [mkEvent "cancel"] := by
    unfold Modal.cancelClickHandler Modal.hideModalHandler
    split <;> rfl
  exact ⟨hconf, hcanc, rfl, rfl, rfl, rfl, rfl, rfl, rfl, rfl,
    hd "confirm", hd "cancel", hmem "confirm", hmem "cancel"⟩

/-- C10 amended witness: at the concrete shown modal, the modal host node and
the single document ancestor, the handler dispatches the one "confirm" event
and the dispatch reduces to the capture phase plus the target phase. -/
theorem c10_signals_bubble_phase_suppressed_witness :
    dispatches (Modal.confirmClickHandler modalShown).2 = [mkEvent "confirm"] ∧
    dispatchInvoked (mkEvent "confirm") modalHostNode [documentHostNode] =
      captureInvoked (mkEvent "confirm") [documentHostNode] ++
        targetInvoked (mkEvent "confirm") modalHostNode :=
  ⟨(c10_signals_bubble_phase_suppressed modalShown modalHostNode
      [documentHostNode]).1,
   (c10_signals_bubble_phase_suppressed modalShown modalHostNode
      [documentHostNode]).2.2.2.2.2.2.2.2.2.2.1⟩
